import Mathlib

/-!
Verification of the type-mapping and symbol-resolution layer of the
rust-protobuf code generator (`protobuf-codegen/src/rust_types_values.rs`).

The Rust data types and functions are shallowly embedded as Lean
definitions; `panic!`, `assert!` and `unreachable!` branches are modelled
by returning `none`, and Rust `Result<_, ()>` by `Option`.
-/

set_option maxHeartbeats 1000000

/-- Rendered Rust identifier (models `RustIdent` / `RustIdentWithPath`
payloads of `RustType` by their display strings). -/
abbrev PStr := String

/-- Alias for the core `Bool`, usable inside the `RustType` namespace
where the bare name `Bool` denotes the constructor `RustType.Bool`. -/
abbrev CBool := Bool

/-- Alias for the core `Option`, usable inside the `RustType` namespace
where the bare name `Option` denotes the constructor `RustType.Option`. -/
abbrev COption := Option

/-- Subset of rust types used in generated code (`enum RustType`). -/
inductive RustType where
  | Int (signed : CBool) (bits : Nat)
  | Float (bits : Nat)
  | Bool
  | Vec (param : RustType)
  | HashMap (key : RustType) (value : RustType)
  | String
  | Slice (param : RustType)
  | Str
  | Option (param : RustType)
  | SingularField (param : RustType)
  | SingularPtrField (param : RustType)
  | RepeatedField (param : RustType)
  | Uniq (param : RustType)
  | Ref (param : RustType)
  | Message (name : PStr)
  | Enum (name : PStr) (default : PStr)
  | EnumOrUnknown (name : PStr) (default : PStr)
  | Oneof (name : PStr)
  | Bytes
  | Chars
  | Group
deriving DecidableEq

/-- `RustType::u8()` -/
def RustType.u8 : RustType := RustType.Int false 8

/-- `RustType::is_primitive` -/
def RustType.is_primitive : RustType → CBool
  | .Int _ _ | .Float _ | .Bool => true
  | _ => false

/-- `RustType::is_u8` -/
def RustType.is_u8 : RustType → CBool
  | .Int false 8 => true
  | _ => false

/-- `RustType::is_str` -/
def RustType.is_str : RustType → CBool
  | .Str => true
  | _ => false

/-- `RustType::is_string` -/
def RustType.is_string : RustType → CBool
  | .String => true
  | _ => false

/-- `RustType::is_slice` -/
def RustType.is_slice : RustType → COption RustType
  | .Slice v => some v
  | _ => none

/-- `RustType::is_slice_u8` -/
def RustType.is_slice_u8 (t : RustType) : CBool :=
  match t.is_slice with
  | some t => t.is_u8
  | none => false

/-- `RustType::is_message` -/
def RustType.is_message : RustType → CBool
  | .Message _ => true
  | _ => false

/-- `RustType::is_enum` -/
def RustType.is_enum : RustType → CBool
  | .Enum _ _ => true
  | _ => false

/-- `RustType::is_enum_or_unknown` -/
def RustType.is_enum_or_unknown : RustType → CBool
  | .EnumOrUnknown _ _ => true
  | _ => false

/-- `RustType::is_ref` -/
def RustType.is_ref : RustType → COption RustType
  | .Ref v => some v
  | _ => none

/-- `RustType::is_box` -/
def RustType.is_box : RustType → COption RustType
  | .Uniq v => some v
  | _ => none

/-- `RustType::default_value`: default value for a type.  The Rust
function panics (modelled as `none`) on variants with no owned default.
For a `Ref` scrutinee the source arms apply in order: `&str`, `&[..]`,
then (after non-`Ref` arms that cannot match) `&Message`. -/
def RustType.default_value : RustType → COption PStr
  | .Ref t =>
    if t.is_str then some "\"\""
    else if t.is_slice.isSome then some "&[]"
    else if t.is_message then
      match t with
      | .Message name => some ("<" ++ name ++ " as ::protobuf::Message>::default_instance()")
      | _ => none
    else none
  | .Int _ _ => some "0"
  | .Float _ => some "0."
  | .Bool => some "false"
  | .Vec _ => some "::std::vec::Vec::new()"
  | .HashMap _ _ => some "::std::collections::HashMap::new()"
  | .String => some "::std::string::String::new()"
  | .Bytes => some "::bytes::Bytes::new()"
  | .Chars => some "::protobuf::Chars::new()"
  | .Option _ => some "::std::option::Option::None"
  | .SingularField _ => some "::protobuf::SingularField::none()"
  | .SingularPtrField _ => some "::protobuf::SingularPtrField::none()"
  | .RepeatedField _ => some "::protobuf::RepeatedField::new()"
  | .Message name => some (name ++ "::new()")
  | .Enum name default => some (name ++ "::" ++ default)
  | .EnumOrUnknown name default =>
    some ("::protobuf::ProtobufEnumOrUnknown::new(" ++ name ++ "::" ++ default ++ ")")
  | _ => none

example : RustType.default_value (RustType.Ref RustType.Str) = some "\"\"" := by decide
example : RustType.default_value RustType.Group = none := by decide
example : RustType.default_value (RustType.Ref (RustType.Message "M")) =
    some "<M as ::protobuf::Message>::default_instance()" := by decide

/-- First block of `RustType::try_into_target`: `&Box<T> -> &T` produces
`&**v` (`self.is_ref().and_then(is_box)` versus `target.is_ref()`). -/
def rule_ref_box_to_ref (s target : RustType) (v : String) : Option String :=
  match (s.is_ref).bind RustType.is_box, target.is_ref with
  | some t1, some t2 => if t1 = t2 then some ("&**" ++ v) else none
  | _, _ => none

/-- Match arm `(x, y) if x == y`. -/
def rule_identity (s target : RustType) (v : String) : Option String :=
  if s = target then some v else none

/-- Match arm `(&Ref(x), y) if **x == *y` producing `*v`. -/
def rule_deref (s target : RustType) (v : String) : Option String :=
  match s with
  | .Ref x => if x = target then some ("*" ++ v) else none
  | _ => none

/-- Match arm `(x, &Uniq(y)) if *x == **y` producing `Box::new(v)`. -/
def rule_box_new (s target : RustType) (v : String) : Option String :=
  match target with
  | .Uniq y => if s = y then some ("::std::boxed::Box::new(" ++ v ++ ")") else none
  | _ => none

/-- Match arm `(&Uniq(x), y) if **x == *y` producing `*v`. -/
def rule_unbox (s target : RustType) (v : String) : Option String :=
  match s with
  | .Uniq x => if x = target then some ("*" ++ v) else none
  | _ => none

/-- Match arm `(&String, &Ref(t)) if **t == Str` producing `&v`. -/
def rule_string_to_ref_str (s target : RustType) (v : String) : Option String :=
  match s, target with
  | .String, .Ref t => if t = RustType.Str then some ("&" ++ v) else none
  | _, _ => none

/-- Match arm `(&Chars, &Ref(t)) if **t == Str` producing `&v`. -/
def rule_chars_to_ref_str (s target : RustType) (v : String) : Option String :=
  match s, target with
  | .Chars, .Ref t => if t = RustType.Str then some ("&" ++ v) else none
  | _, _ => none

/-- Match arm `(&Ref(t1), &Ref(t2)) if t1.is_string() && t2.is_str()`. -/
def rule_ref_string_to_ref_str (s target : RustType) (v : String) : Option String :=
  match s, target with
  | .Ref t1, .Ref t2 => if t1.is_string && t2.is_str then some ("&" ++ v) else none
  | _, _ => none

/-- Match arm `(&Ref(t1), &String) if **t1 == Str`. -/
def rule_ref_str_to_string (s target : RustType) (v : String) : Option String :=
  match s, target with
  | .Ref t1, .String => if t1 = RustType.Str then some (v ++ ".to_owned()") else none
  | _, _ => none

/-- Match arm `(&Ref(t1), &Chars) if **t1 == Str`. -/
def rule_ref_str_to_chars (s target : RustType) (v : String) : Option String :=
  match s, target with
  | .Ref t1, .Chars =>
    if t1 = RustType.Str then
      some ("<::protobuf::Chars as ::std::convert::From<_>>::from(" ++ v ++ ".to_owned())")
    else none
  | _, _ => none

/-- Match arm `(&Ref(t1), &Vec(t2))` with `**t1 == Slice(x)`, `**x == **t2`. -/
def rule_ref_slice_to_vec (s target : RustType) (v : String) : Option String :=
  match s, target with
  | .Ref t1, .Vec t2 =>
    match t1 with
    | .Slice x => if x = t2 then some (v ++ ".to_vec()") else none
    | _ => none
  | _, _ => none

/-- Match arm `(&Ref(t1), &Bytes) if t1.is_slice_u8()`. -/
def rule_ref_slice_u8_to_bytes (s target : RustType) (v : String) : Option String :=
  match s, target with
  | .Ref t1, .Bytes =>
    if t1.is_slice_u8 then
      some ("<::bytes::Bytes as ::std::convert::From<_>>::from(" ++ v ++ ".to_vec())")
    else none
  | _, _ => none

/-- Match arm `(&Vec(x), &Ref(t))` with `**t == Slice(y)`, `x == y`. -/
def rule_vec_to_ref_slice (s target : RustType) (v : String) : Option String :=
  match s, target with
  | .Vec x, .Ref t =>
    match t with
    | .Slice y => if x = y then some ("&" ++ v) else none
    | _ => none
  | _, _ => none

/-- Match arm `(&Bytes, &Ref(t))` with `**t == Slice(y)`, `**y == u8`. -/
def rule_bytes_to_ref_slice_u8 (s target : RustType) (v : String) : Option String :=
  match s, target with
  | .Bytes, .Ref t =>
    match t with
    | .Slice y => if y = RustType.u8 then some ("&" ++ v) else none
    | _ => none
  | _, _ => none

/-- Match arm `(&Ref(t1), &Ref(t2))` with `(Vec(x), Slice(y))`, `x == y`. -/
def rule_ref_vec_to_ref_slice (s target : RustType) (v : String) : Option String :=
  match s, target with
  | .Ref t1, .Ref t2 =>
    match t1, t2 with
    | .Vec x, .Slice y => if x = y then some ("&" ++ v) else none
    | _, _ => none
  | _, _ => none

/-- Match arm `(&Enum(..), &Int(true, 32))`. -/
def rule_enum_to_i32 (s target : RustType) (v : String) : Option String :=
  match s, target with
  | .Enum _ _, .Int true 32 => some ("::protobuf::ProtobufEnum::value(&" ++ v ++ ")")
  | _, _ => none

/-- Match arm `(&EnumOrUnknown(..), &Int(true, 32))`. -/
def rule_enum_or_unknown_to_i32 (s target : RustType) (v : String) : Option String :=
  match s, target with
  | .EnumOrUnknown _ _, .Int true 32 =>
    some ("::protobuf::ProtobufEnumOrUnknown::value(&" ++ v ++ ")")
  | _, _ => none

/-- Match arm `(&Ref(t), &Int(true, 32)) if t.is_enum()`. -/
def rule_ref_enum_to_i32 (s target : RustType) (v : String) : Option String :=
  match s, target with
  | .Ref t, .Int true 32 =>
    if t.is_enum then some ("::protobuf::ProtobufEnum::value(" ++ v ++ ")") else none
  | _, _ => none

/-- Match arm `(&Ref(t), &Int(true, 32)) if t.is_enum_or_unknown()`. -/
def rule_ref_enum_or_unknown_to_i32 (s target : RustType) (v : String) : Option String :=
  match s, target with
  | .Ref t, .Int true 32 =>
    if t.is_enum_or_unknown then
      some ("::protobuf::ProtobufEnumOrUnknown::value(" ++ v ++ ")")
    else none
  | _, _ => none

/-- Match arm `(&EnumOrUnknown(f, ..), &Enum(t, ..)) if f == t`. -/
def rule_enum_or_unknown_to_enum (s target : RustType) (v : String) : Option String :=
  match s, target with
  | .EnumOrUnknown f _, .Enum t _ =>
    if f = t then
      some ("::protobuf::ProtobufEnumOrUnknown::enum_value_or_default(&" ++ v ++ ")")
    else none
  | _, _ => none

/-- Match arm `(&Enum(f, ..), &EnumOrUnknown(t, ..)) if f == t`. -/
def rule_enum_to_enum_or_unknown (s target : RustType) (v : String) : Option String :=
  match s, target with
  | .Enum f _, .EnumOrUnknown t _ =>
    if f = t then some ("::protobuf::ProtobufEnumOrUnknown::new(" ++ v ++ ")") else none
  | _, _ => none

/-- First-match-wins over a list of already-evaluated match arms:
`some` from the earliest arm whose pattern and guard matched. -/
def firstSome : List (Option String) → Option String
  | [] => none
  | some r :: _ => some r
  | none :: rest => firstSome rest

/-- The ordered, first-match-wins arm list of the central `match` in
`RustType::try_into_target`.  A Rust match arm whose pattern or guard
fails falls through to the next arm, exactly as taking the first `some`
of the arm results in order. -/
def main_rules (s target : RustType) (v : String) : Option String :=
  firstSome
    [rule_identity s target v,
     rule_deref s target v,
     rule_box_new s target v,
     rule_unbox s target v,
     rule_string_to_ref_str s target v,
     rule_chars_to_ref_str s target v,
     rule_ref_string_to_ref_str s target v,
     rule_ref_str_to_string s target v,
     rule_ref_str_to_chars s target v,
     rule_ref_slice_to_vec s target v,
     rule_ref_slice_u8_to_bytes s target v,
     rule_vec_to_ref_slice s target v,
     rule_bytes_to_ref_slice_u8 s target v,
     rule_ref_vec_to_ref_slice s target v,
     rule_enum_to_i32 s target v,
     rule_enum_or_unknown_to_i32 s target v,
     rule_ref_enum_to_i32 s target v,
     rule_ref_enum_or_unknown_to_i32 s target v,
     rule_enum_or_unknown_to_enum s target v,
     rule_enum_to_enum_or_unknown s target v]

/-- `RustType::try_into_target`: first the `&Box<T> -> &T` block, then the
ordered match arms, then the single recursive fallback stripping a `Ref`
from the source; `Err(())` is modelled as `none`.  The fallback exists
only for `Ref` sources, so the two top-level arms split on that. -/
def try_into_target : RustType → RustType → String → Option String
  | .Ref inner, target, v =>
    match rule_ref_box_to_ref (.Ref inner) target v with
    | some r => some r
    | none =>
      match main_rules (.Ref inner) target v with
      | some r => some r
      | none => try_into_target inner target v
  | s, target, v =>
    match rule_ref_box_to_ref s target v with
    | some r => some r
    | none =>
      match main_rules s target v with
      | some r => some r
      | none => none

example :
    try_into_target (RustType.Ref (RustType.Uniq (RustType.Message "Ab")))
      (RustType.Ref (RustType.Message "Ab")) "v" = some "&**v" := by decide
example : try_into_target RustType.Bool RustType.Bool "v" = some "v" := by decide
example :
    try_into_target (RustType.Ref RustType.Bool) RustType.Bool "v" = some "*v" := by decide
example :
    try_into_target (RustType.Ref (RustType.Enum "E" "A")) (RustType.Int true 32) "v" =
      some "::protobuf::ProtobufEnum::value(v)" := by decide
example :
    try_into_target (RustType.Ref (RustType.Ref RustType.Str)) RustType.String "v" =
      some "v.to_owned()" := by decide

/-- No `RustType` equals one extra `Uniq` wrapping of itself. -/
theorem uniq_ne (t : RustType) : ¬(t = RustType.Uniq t) := by
  intro h
  have h2 := congrArg sizeOf h
  simp at h2

/-- The `&Box<T> -> &T` block never fires when source and target are the
same type: it would need `t = Uniq t`. -/
theorem rule_ref_box_to_ref_self (t : RustType) (v : String) :
    rule_ref_box_to_ref t t v = none := by
  cases t <;>
    simp [rule_ref_box_to_ref, RustType.is_ref, RustType.is_box, Option.bind]
  case Ref x => cases x <;> simp [RustType.is_box, uniq_ne]

/-- C1: for every constructible `RustType` `t` and expression `v`,
`try_into_target t t v` succeeds and returns `v` unchanged; although the
implementation checks the Borrowed-of-Owned (`&Box<T> -> &T`) rule first,
that rule cannot fire for equal source and target, so the identity arm
wins. -/
theorem try_into_target_identity (t : RustType) (v : String) :
    try_into_target t t v = some v := by
  have h1 := rule_ref_box_to_ref_self t v
  have h2 : main_rules t t v = some v := by
    simp [main_rules, rule_identity, firstSome]
  cases t <;> simp [try_into_target, h1, h2]

/-- C5: converting `&Box<Message>` (`Ref (Uniq (Message S))`) to
`&Message` (`Ref (Message S)`) succeeds with the double-dereference-then-
reborrow form `&**v`, produced by the first block, not an allocating
copy. -/
theorem try_into_target_ref_box_message (S : PStr) (v : String) :
    try_into_target (RustType.Ref (RustType.Uniq (RustType.Message S)))
      (RustType.Ref (RustType.Message S)) v = some ("&**" ++ v) := by
  simp [try_into_target, rule_ref_box_to_ref, RustType.is_ref, RustType.is_box,
    Option.bind]

/-- C8: the single recursive fallback of `try_into_target` strips one
`Ref` wrapper, so the source argument strictly decreases in size; the
function is total (it is a Lean function accepted by the termination
checker) and satisfies its defining unfolding on every `Ref` source. -/
theorem try_into_target_total (inner target : RustType) (v : String) :
    sizeOf inner < sizeOf (RustType.Ref inner) ∧
    try_into_target (RustType.Ref inner) target v =
      (match rule_ref_box_to_ref (RustType.Ref inner) target v with
       | some r => some r
       | none =>
         match main_rules (RustType.Ref inner) target v with
         | some r => some r
         | none => try_into_target inner target v) := by
  constructor
  · simp
  · simp only [try_into_target]

/-- C2 counterexample: `default_value` on the Borrowed variant
`Ref Str` (`&str`) succeeds with the static empty string literal, so the
claim that every Borrowed variant fails is false. -/
theorem default_value_ref_str_cex :
    RustType.default_value (RustType.Ref RustType.Str) = some "\"\"" ∧
    RustType.default_value (RustType.Ref RustType.Str) ≠ none := by decide

/-- C2 (amended): `default_value` fails (panics, modelled `none`) for
`Group`, for every `Oneof`, and for every Borrowed variant `Ref t` whose
inner type is not `Str`, not a slice, and not a `Message`. -/
theorem default_value_unrepresentable (s : PStr) (t : RustType)
    (h1 : t.is_str = false) (h2 : t.is_slice = none) (h3 : t.is_message = false) :
    RustType.default_value RustType.Group = none ∧
    RustType.default_value (RustType.Oneof s) = none ∧
    RustType.default_value (RustType.Ref t) = none := by
  refine ⟨rfl, rfl, ?_⟩
  simp [RustType.default_value, h1, h2, h3]

/-- Witness for C2 (amended) at `Oneof "F"` and `Ref Bool`. -/
theorem default_value_unrepresentable_witness :
    RustType.default_value RustType.Group = none ∧
    RustType.default_value (RustType.Oneof "F") = none ∧
    RustType.default_value (RustType.Ref RustType.Bool) = none :=
  default_value_unrepresentable "F" RustType.Bool rfl rfl rfl

/-- Modelled from the spec: a ModulePath — an ordered sequence of path
segments, flagged absolute or relative-to-current-unit (spec section 3).
The concrete `RustPath` type lives in the `rust_name` module of the
repository, outside this file's source. -/
structure RustPath where
  absolute : Bool
  components : List String
deriving DecidableEq

/-- Modelled from the spec: appending one module path to another; an
absolute right operand stands alone. -/
def RustPath.append (p q : RustPath) : RustPath :=
  if q.absolute then q else ⟨p.absolute, p.components ++ q.components⟩

/-- The common-prefix-stripping `while` loop of `make_path_to_path`:
`while !source.is_empty() && source.first() == dest.first()` removes the
first segment of both.  (`first` / `remove_first` are modelled from the
spec.) -/
def stripCommon : List String → List String → List String × List String
  | x :: xs, y :: ys =>
    if x = y then stripCommon xs ys else (x :: xs, y :: ys)
  | xs, ys => (xs, ys)

/-- Length of the longest common leading-segment prefix of two paths. -/
def commonPrefixLen : List String → List String → Nat
  | x :: xs, y :: ys => if x = y then commonPrefixLen xs ys + 1 else 0
  | _, _ => 0

/-- `make_path_to_path`: an absolute destination is returned unchanged;
an absolute source with a relative destination fails the `assert!`
(modelled as `none`); otherwise the common leading prefix is stripped and
the remaining source segments are each replaced by one parent-traversal
segment (`super`, written here as `..` following the spec) before the
remaining destination segments.  The `RustPath` operations it calls
(`to_reverse`, `append`) are modelled from the spec (section 4.3). -/
def make_path_to_path (source dest : RustPath) : Option RustPath :=
  if dest.absolute then some dest
  else if source.absolute then none
  else
    let sd := stripCommon source.components dest.components
    some ⟨false, sd.1.map (fun _ => "..") ++ sd.2⟩

example : make_path_to_path ⟨false, ["a", "b", "c"]⟩ ⟨false, ["a", "x"]⟩ =
    some ⟨false, ["..", "..", "x"]⟩ := by decide
example : make_path_to_path ⟨false, ["m"]⟩ ⟨true, ["x"]⟩ = some ⟨true, ["x"]⟩ := by decide

/-- `stripCommon` drops exactly the longest common leading prefix from
both of its arguments. -/
theorem stripCommon_eq_drop (xs ys : List String) :
    stripCommon xs ys =
      (xs.drop (commonPrefixLen xs ys), ys.drop (commonPrefixLen xs ys)) := by
  induction xs generalizing ys with
  | nil => cases ys <;> simp [stripCommon, commonPrefixLen]
  | cons x xs ih =>
    cases ys with
    | nil => simp [stripCommon, commonPrefixLen]
    | cons y ys =>
      by_cases h : x = y <;> simp [stripCommon, commonPrefixLen, h, ih]

/-- On two equal lists the whole list is the common prefix. -/
theorem commonPrefixLen_self (xs : List String) :
    commonPrefixLen xs xs = xs.length := by
  induction xs with
  | nil => simp [commonPrefixLen]
  | cons x xs ih => simp [commonPrefixLen, ih]

/-- The prefixes of that length agree. -/
theorem commonPrefixLen_take (xs ys : List String) :
    xs.take (commonPrefixLen xs ys) = ys.take (commonPrefixLen xs ys) := by
  induction xs generalizing ys with
  | nil => cases ys <;> simp [commonPrefixLen]
  | cons x xs ih =>
    cases ys with
    | nil => simp [commonPrefixLen]
    | cons y ys => by_cases h : x = y <;> simp [commonPrefixLen, h, ih]

/-- No longer prefix (within the source's length) agrees: the stripped
prefix really is the longest common one. -/
theorem commonPrefixLen_maximal (xs ys : List String) (j : Nat)
    (hj : j ≤ xs.length) (h : xs.take j = ys.take j) :
    j ≤ commonPrefixLen xs ys := by
  induction xs generalizing ys j with
  | nil => exact Nat.le_trans hj (Nat.zero_le _)
  | cons x xs ih =>
    cases j with
    | zero => exact Nat.zero_le _
    | succ j =>
      cases ys with
      | nil => simp at h
      | cons y ys =>
        simp only [List.take_succ_cons, List.cons.injEq] at h
        simp only [commonPrefixLen, h.1, if_pos]
        have := ih ys j (by simpa using hj) h.2
        omega

/-- C3 counterexample: with an absolute source and a relative
destination, `make_path_to_path` fails its assertion (returns no path)
instead of stripping the common prefix and returning the traversal path
`["..", "b"]` that the claim describes for these inputs. -/
theorem make_path_to_path_abs_source_cex :
    make_path_to_path ⟨true, ["a"]⟩ ⟨false, ["b"]⟩ = none ∧
    make_path_to_path ⟨true, ["a"]⟩ ⟨false, ["b"]⟩ ≠ some ⟨false, ["..", "b"]⟩ := by
  decide

/-- C3 (amended): for every source and destination, an absolute
destination is returned unchanged; when the destination is relative and
the source is also relative (the precondition the assertion enforces),
the result drops the longest common leading-segment prefix, emits one
parent-traversal segment per remaining source segment, and appends the
remaining destination segments; for every relative `P`,
`make_path_to_path P P` is the empty relative path; and on
`["a","b","c"]` to `["a","x"]` the result is `["..","..","x"]`. -/
theorem make_path_to_path_spec (src dst : RustPath) :
    (dst.absolute = true → make_path_to_path src dst = some dst) ∧
    (dst.absolute = false → src.absolute = false →
      make_path_to_path src dst =
        some ⟨false,
          List.replicate
            (src.components.length - commonPrefixLen src.components dst.components)
            ".." ++
          dst.components.drop (commonPrefixLen src.components dst.components)⟩) ∧
    (src.absolute = false → make_path_to_path src src = some ⟨false, []⟩) ∧
    make_path_to_path ⟨false, ["a", "b", "c"]⟩ ⟨false, ["a", "x"]⟩ =
      some ⟨false, ["..", "..", "x"]⟩ := by
  refine ⟨fun h => by simp [make_path_to_path, h], fun hd hs => ?_, fun hs => ?_, by decide⟩
  · simp only [make_path_to_path, hd, hs, Bool.false_eq_true, if_false,
      stripCommon_eq_drop]
    simp [List.map_const', List.length_drop]
  · simp [make_path_to_path, hs, stripCommon_eq_drop, commonPrefixLen_self]

/-- Witness for C3 (amended), instantiated at the resolver-correctness
example from the spec. -/
theorem make_path_to_path_spec_witness :
    make_path_to_path ⟨false, ["a", "b", "c"]⟩ ⟨false, ["a", "x"]⟩ =
      some ⟨false,
        List.replicate
          (["a", "b", "c"].length - commonPrefixLen ["a", "b", "c"] ["a", "x"]) ".." ++
        (["a", "x"].drop (commonPrefixLen ["a", "b", "c"] ["a", "x"]))⟩ :=
  (make_path_to_path_spec ⟨false, ["a", "b", "c"]⟩ ⟨false, ["a", "x"]⟩).2.1 rfl rfl

/-- C9: `make_path_to_path` has the unstated precondition that a relative
destination comes with a relative source: an absolute source paired with
a relative destination hits the assertion (no path is returned), and
whenever the precondition holds the assertion branch is unreachable — a
path is always produced. -/
theorem make_path_to_path_assert (src dst : RustPath) :
    (dst.absolute = false → src.absolute = true → make_path_to_path src dst = none) ∧
    ((dst.absolute = false → src.absolute = false) →
      (make_path_to_path src dst).isSome = true) := by
  constructor
  · intro h1 h2
    simp [make_path_to_path, h1, h2]
  · intro h
    cases hdst : dst.absolute with
    | true => simp [make_path_to_path, hdst]
    | false => simp [make_path_to_path, hdst, h hdst]

/-- Witness for C9 at concrete paths: the assertion fires for an absolute
source, and a relative pair yields a path. -/
theorem make_path_to_path_assert_witness :
    make_path_to_path ⟨true, ["a"]⟩ ⟨false, ["b"]⟩ = none ∧
    (make_path_to_path ⟨false, ["a"]⟩ ⟨false, ["b"]⟩).isSome = true :=
  ⟨(make_path_to_path_assert ⟨true, ["a"]⟩ ⟨false, ["b"]⟩).1 rfl rfl,
   (make_path_to_path_assert ⟨false, ["a"]⟩ ⟨false, ["b"]⟩).2 (fun _ => rfl)⟩

/-- `field_descriptor_proto::Type`: the schema wire kinds. -/
inductive FieldType where
  | TYPE_DOUBLE
  | TYPE_FLOAT
  | TYPE_INT32
  | TYPE_INT64
  | TYPE_UINT32
  | TYPE_UINT64
  | TYPE_SINT32
  | TYPE_SINT64
  | TYPE_FIXED32
  | TYPE_FIXED64
  | TYPE_SFIXED32
  | TYPE_SFIXED64
  | TYPE_BOOL
  | TYPE_STRING
  | TYPE_BYTES
  | TYPE_ENUM
  | TYPE_MESSAGE
  | TYPE_GROUP
deriving DecidableEq

/-- `protobuf_name`: protobuf type name for a protobuf base type. -/
def protobuf_name : FieldType → String
  | .TYPE_DOUBLE => "double"
  | .TYPE_FLOAT => "float"
  | .TYPE_INT32 => "int32"
  | .TYPE_INT64 => "int64"
  | .TYPE_UINT32 => "uint32"
  | .TYPE_UINT64 => "uint64"
  | .TYPE_SINT32 => "sint32"
  | .TYPE_SINT64 => "sint64"
  | .TYPE_FIXED32 => "fixed32"
  | .TYPE_FIXED64 => "fixed64"
  | .TYPE_SFIXED32 => "sfixed32"
  | .TYPE_SFIXED64 => "sfixed64"
  | .TYPE_BOOL => "bool"
  | .TYPE_STRING => "string"
  | .TYPE_BYTES => "bytes"
  | .TYPE_ENUM => "enum"
  | .TYPE_MESSAGE => "message"
  | .TYPE_GROUP => "group"

/-- `rust_name`: rust type for a protobuf base type; panics (modelled
`none`) for enum, group and message kinds. -/
def rust_name : FieldType → Option RustType
  | .TYPE_DOUBLE => some (RustType.Float 64)
  | .TYPE_FLOAT => some (RustType.Float 32)
  | .TYPE_INT32 => some (RustType.Int true 32)
  | .TYPE_INT64 => some (RustType.Int true 64)
  | .TYPE_UINT32 => some (RustType.Int false 32)
  | .TYPE_UINT64 => some (RustType.Int false 64)
  | .TYPE_SINT32 => some (RustType.Int true 32)
  | .TYPE_SINT64 => some (RustType.Int true 64)
  | .TYPE_FIXED32 => some (RustType.Int false 32)
  | .TYPE_FIXED64 => some (RustType.Int false 64)
  | .TYPE_SFIXED32 => some (RustType.Int true 32)
  | .TYPE_SFIXED64 => some (RustType.Int true 64)
  | .TYPE_BOOL => some RustType.Bool
  | .TYPE_STRING => some RustType.String
  | .TYPE_BYTES => some (RustType.Vec (RustType.Int false 8))
  | .TYPE_ENUM => none
  | .TYPE_GROUP => none
  | .TYPE_MESSAGE => none

/-- C6: the field-kind-to-type mapping is total on the fifteen primitive
wire kinds with exactly the specified `RustType` for each, and fails
loudly (panics, modelled `none`) for the enum, message and group
kinds. -/
theorem rust_name_primitive_table :
    rust_name .TYPE_DOUBLE = some (RustType.Float 64) ∧
    rust_name .TYPE_FLOAT = some (RustType.Float 32) ∧
    rust_name .TYPE_INT32 = some (RustType.Int true 32) ∧
    rust_name .TYPE_SINT32 = some (RustType.Int true 32) ∧
    rust_name .TYPE_SFIXED32 = some (RustType.Int true 32) ∧
    rust_name .TYPE_INT64 = some (RustType.Int true 64) ∧
    rust_name .TYPE_SINT64 = some (RustType.Int true 64) ∧
    rust_name .TYPE_SFIXED64 = some (RustType.Int true 64) ∧
    rust_name .TYPE_UINT32 = some (RustType.Int false 32) ∧
    rust_name .TYPE_FIXED32 = some (RustType.Int false 32) ∧
    rust_name .TYPE_UINT64 = some (RustType.Int false 64) ∧
    rust_name .TYPE_FIXED64 = some (RustType.Int false 64) ∧
    rust_name .TYPE_BOOL = some RustType.Bool ∧
    rust_name .TYPE_STRING = some RustType.String ∧
    rust_name .TYPE_BYTES = some (RustType.Vec (RustType.Int false 8)) ∧
    rust_name .TYPE_ENUM = none ∧
    rust_name .TYPE_MESSAGE = none ∧
    rust_name .TYPE_GROUP = none := by
  decide

/-- `PrimitiveTypeVariant`: default buffer representation versus the
alternate shared-buffer (Carllerche) representation. -/
inductive PrimitiveTypeVariant where
  | Default
  | Carllerche
deriving DecidableEq

/-- Modelled from the spec: `strx::capitalize` (outside this file's
source) uppercases the first character of the kind's textual name. -/
def capitalize (s : String) : String :=
  match s.toList with
  | [] => ""
  | c :: cs => String.mk (c.toUpper :: cs)

/-- `ProtobufTypeGen`: ProtobufType trait name selector. -/
inductive ProtobufTypeGen where
  | Primitive (t : FieldType) (variant : PrimitiveTypeVariant)
  | Message (name : PStr)
  | EnumOrUnknown (name : PStr)
  | Enum (name : PStr)

/-- `ProtobufTypeGen::rust_type`: the runtime codec type name; the
`unreachable!` arm for Carllerche on non-bytes/string kinds is modelled
as `none`.  Arm order follows the source: the `(t, Default)` arm comes
first, then the two Carllerche arms, then the Carllerche catch-all. -/
def ProtobufTypeGen.rust_type : ProtobufTypeGen → COption PStr
  | .Primitive t .Default =>
    some ("::protobuf::types::ProtobufType" ++ capitalize (protobuf_name t))
  | .Primitive .TYPE_BYTES .Carllerche =>
    some "::protobuf::types::ProtobufTypeCarllercheBytes"
  | .Primitive .TYPE_STRING .Carllerche =>
    some "::protobuf::types::ProtobufTypeCarllercheChars"
  | .Primitive _ .Carllerche => none
  | .Message name => some ("::protobuf::types::ProtobufTypeMessage<" ++ name ++ ">")
  | .EnumOrUnknown name =>
    some ("::protobuf::types::ProtobufTypeEnumOrUnknown<" ++ name ++ ">")
  | .Enum name => some ("::protobuf::types::ProtobufTypeEnum<" ++ name ++ ">")

example : ProtobufTypeGen.rust_type (.Primitive .TYPE_BOOL .Default) =
    some "::protobuf::types::ProtobufTypeBool" := by decide
example : ProtobufTypeGen.rust_type (.Primitive .TYPE_BOOL .Carllerche) = none := by
  decide

/-- C10: under the Carllerche shared-buffer variant, `rust_type` succeeds
exactly for the bytes and string kinds; every other kind reaches the
`unreachable!` arm (modelled `none`), and under the precondition that the
kind is bytes or string that arm is unreachable. -/
theorem rust_type_carllerche_domain (t : FieldType) :
    (t ≠ FieldType.TYPE_BYTES → t ≠ FieldType.TYPE_STRING →
      ProtobufTypeGen.rust_type (.Primitive t .Carllerche) = none) ∧
    (t = FieldType.TYPE_BYTES ∨ t = FieldType.TYPE_STRING →
      (ProtobufTypeGen.rust_type (.Primitive t .Carllerche)).isSome = true) := by
  cases t <;> refine ⟨fun h1 h2 => ?_, fun h => ?_⟩ <;>
    first
      | rfl
      | (exact absurd rfl h1)
      | (exact absurd rfl h2)
      | (rcases h with h | h <;> exact absurd h (by decide))

/-- Witness for C10 at the double and bytes kinds. -/
theorem rust_type_carllerche_domain_witness :
    ProtobufTypeGen.rust_type (.Primitive .TYPE_DOUBLE .Carllerche) = none ∧
    (ProtobufTypeGen.rust_type (.Primitive .TYPE_BYTES .Carllerche)).isSome = true :=
  ⟨(rust_type_carllerche_domain FieldType.TYPE_DOUBLE).1 (by decide) (by decide),
   (rust_type_carllerche_domain FieldType.TYPE_BYTES).2 (Or.inl rfl)⟩

/-- `str::rfind(char)` modelled on a character list: the index of the
last occurrence, if any. -/
def rfindIdx (c : Char) : List Char → Option Nat
  | [] => none
  | x :: xs =>
    match rfindIdx c xs with
    | some i => some (i + 1)
    | none => if x = c then some 0 else none

/-- `file.rfind(sep).map(i -> i + 1).unwrap_or(0)`: index one past the
last occurrence of a separator, or `0`. -/
def sepAfter (c : Char) (s : List Char) : Nat :=
  ((rfindIdx c s).map (fun i => i + 1)).getD 0

/-- `file_last_component`: drop everything up to and including the last
`/` or `\` separator (`&file[cmp::max(fs, bs)..]`). -/
def file_last_component (file : List Char) : List Char :=
  file.drop (Nat.max (sepAfter '/' file) (sepAfter '\\' file))

example : file_last_component "ab.proto".toList = "ab.proto".toList := by decide
example : file_last_component "xx/ab.proto".toList = "ab.proto".toList := by decide
example : file_last_component "xx\\ab.proto".toList = "ab.proto".toList := by decide
example : file_last_component "yy\\xx\\ab.proto".toList = "ab.proto".toList := by decide

/-- The file-descriptor data `is_descriptor_proto` consumes: declaring
file name and package (modelled as character lists). -/
structure FileDescriptorProto where
  name : List Char
  package : List Char
deriving DecidableEq

/-- `is_descriptor_proto`: the bootstrap self-describing schema unit test
(package `google.protobuf`, file basename `descriptor.proto`). -/
def is_descriptor_proto (file : FileDescriptorProto) : Bool :=
  file.package == "google.protobuf".toList &&
    file_last_component file.name == "descriptor.proto".toList

/-- The last occurrence in `p ++ f` is the last occurrence in `f` when
one exists, shifted by `p.length`, and otherwise the last occurrence in
`p`. -/
theorem rfindIdx_append (c : Char) (p f : List Char) :
    rfindIdx c (p ++ f) =
      match rfindIdx c f with
      | some i => some (p.length + i)
      | none => rfindIdx c p := by
  induction p with
  | nil => cases h : rfindIdx c f <;> simp [h, rfindIdx]
  | cons x xs ih =>
    simp only [List.cons_append, rfindIdx, List.append_eq, ih]
    cases h1 : rfindIdx c f with
    | some i =>
      simp only [h1, List.length_cons, Option.some.injEq]
      omega
    | none => simp only [h1]

/-- A found index is inside the list. -/
theorem rfindIdx_lt (c : Char) (s : List Char) (i : Nat)
    (h : rfindIdx c s = some i) : i < s.length := by
  induction s generalizing i with
  | nil => simp [rfindIdx] at h
  | cons x xs ih =>
    simp only [rfindIdx] at h
    cases h2 : rfindIdx c xs with
    | some j =>
      rw [h2] at h
      simp at h
      have := ih j h2
      simp only [List.length_cons]
      omega
    | none =>
      rw [h2] at h
      by_cases hx : x = c
      · simp [hx] at h
        simp only [List.length_cons]
        omega
      · simp [hx] at h

/-- `sepAfter` never exceeds the list length. -/
theorem sepAfter_le (c : Char) (s : List Char) : sepAfter c s ≤ s.length := by
  unfold sepAfter
  cases h : rfindIdx c s with
  | none => simp
  | some i =>
    have := rfindIdx_lt c s i h
    simp only [Option.map_some', Option.getD_some]
    omega

/-- `sepAfter` of a list ending in the sought separator is the whole
length. -/
theorem sepAfter_last (c : Char) (p : List Char) :
    sepAfter c (p ++ [c]) = p.length + 1 := by
  unfold sepAfter
  rw [rfindIdx_append]
  simp [rfindIdx]

/-- `sepAfter` across an append, in closed form. -/
theorem sepAfter_append (c : Char) (p f : List Char) :
    sepAfter c (p ++ f) =
      match rfindIdx c f with
      | some i => p.length + i + 1
      | none => sepAfter c p := by
  unfold sepAfter
  rw [rfindIdx_append]
  cases h : rfindIdx c f <;> simp [h]

/-- Max-shift arithmetic for the separator-position case analysis. -/
theorem natMax_sep_nn (n L b : Nat) (hL : L = n + 1) (hb : b ≤ L) :
    Nat.max (n + 1) b = L + Nat.max 0 0 := by
  simp only [Nat.max_def]
  split <;> split <;> omega

/-- Max-shift arithmetic: left position inside the prefix, right beyond. -/
theorem natMax_sep_ns (n L j : Nat) (hL : L = n + 1) :
    Nat.max (n + 1) (L + j + 1) = L + Nat.max 0 (j + 1) := by
  simp only [Nat.max_def]
  split <;> split <;> omega

/-- Max-shift arithmetic: left beyond the prefix, right inside. -/
theorem natMax_sep_sn (L i b : Nat) (hb : b ≤ L) :
    Nat.max (L + i + 1) b = L + Nat.max (i + 1) 0 := by
  simp only [Nat.max_def]
  split <;> split <;> omega

/-- Max-shift arithmetic: both positions beyond the prefix. -/
theorem natMax_sep_ss (L i j : Nat) :
    Nat.max (L + i + 1) (L + j + 1) = L + Nat.max (i + 1) (j + 1) := by
  simp only [Nat.max_def]
  split <;> split <;> omega

/-- `Nat.max` is commutative, stated on `Nat.max` itself so it can
rewrite goals that mention it syntactically. -/
theorem natMax_comm (a b : Nat) : Nat.max a b = Nat.max b a := by
  simp only [Nat.max_def]
  split <;> split <;> omega

/-- Dropping a prefix-shifted index from an appended list drops the
unshifted index from the suffix. -/
theorem drop_max_helper (P f : List Char) (m k : Nat) (hm : m = P.length + k) :
    (P ++ f).drop m = f.drop k := by
  subst hm
  exact List.drop_append k

/-- Cutting at the later of two last-separator positions ignores any
leading directory part ending in the first separator. -/
theorem drop_two_sep (c1 c2 : Char) (p f : List Char) :
    ((p ++ [c1]) ++ f).drop
        (Nat.max (sepAfter c1 ((p ++ [c1]) ++ f)) (sepAfter c2 ((p ++ [c1]) ++ f))) =
      f.drop (Nat.max (sepAfter c1 f) (sepAfter c2 f)) := by
  have hsl : sepAfter c1 (p ++ [c1]) = p.length + 1 := sepAfter_last c1 p
  have hb : sepAfter c2 (p ++ [c1]) ≤ (p ++ [c1]).length := sepAfter_le c2 (p ++ [c1])
  have hlen : (p ++ [c1]).length = p.length + 1 := by simp
  rw [sepAfter_append c1 (p ++ [c1]) f, sepAfter_append c2 (p ++ [c1]) f]
  cases h1 : rfindIdx c1 f with
  | none =>
    have e1 : sepAfter c1 f = 0 := by simp [sepAfter, h1]
    cases h2 : rfindIdx c2 f with
    | none =>
      have e2 : sepAfter c2 f = 0 := by simp [sepAfter, h2]
      dsimp only
      rw [e1, e2, hsl]
      exact drop_max_helper (p ++ [c1]) f _ _
        (natMax_sep_nn p.length (p ++ [c1]).length (sepAfter c2 (p ++ [c1])) hlen hb)
    | some j =>
      have e2 : sepAfter c2 f = j + 1 := by simp [sepAfter, h2]
      dsimp only
      rw [e1, e2, hsl]
      exact drop_max_helper (p ++ [c1]) f _ _
        (natMax_sep_ns p.length (p ++ [c1]).length j hlen)
  | some i =>
    have e1 : sepAfter c1 f = i + 1 := by simp [sepAfter, h1]
    cases h2 : rfindIdx c2 f with
    | none =>
      have e2 : sepAfter c2 f = 0 := by simp [sepAfter, h2]
      dsimp only
      rw [e1, e2]
      exact drop_max_helper (p ++ [c1]) f _ _
        (natMax_sep_sn (p ++ [c1]).length i (sepAfter c2 (p ++ [c1])) hb)
    | some j =>
      have e2 : sepAfter c2 f = j + 1 := by simp [sepAfter, h2]
      dsimp only
      rw [e1, e2]
      exact drop_max_helper (p ++ [c1]) f _ _
        (natMax_sep_ss (p ++ [c1]).length i j)

/-- `file_last_component` ignores any directory prefix ending in a `/` or
`\` separator. -/
theorem file_last_component_append (p : List Char) (c : Char) (f : List Char)
    (h : c = '/' ∨ c = '\\') :
    file_last_component (p ++ c :: f) = file_last_component f := by
  have hpc : p ++ c :: f = (p ++ [c]) ++ f := by simp
  rw [hpc]
  unfold file_last_component
  rcases h with h | h <;> subst h
  · exact drop_two_sep '/' '\\' p f
  · rw [natMax_comm (sepAfter '/' ((p ++ ['\\']) ++ f)),
      natMax_comm (sepAfter '/' f)]
    exact drop_two_sep '\\' '/' p f

/-- C7: `is_descriptor_proto` holds exactly when the package is
`google.protobuf` and the final path component of the file name is
`descriptor.proto`; and the test is independent of any directory prefix
ending in a `/` or `\` separator placed before the file name. -/
theorem is_descriptor_proto_spec :
    (∀ fd : FileDescriptorProto,
      is_descriptor_proto fd = true ↔
        (fd.package = "google.protobuf".toList ∧
         file_last_component fd.name = "descriptor.proto".toList)) ∧
    (∀ (p f : List Char) (c : Char) (pkg : List Char), c = '/' ∨ c = '\\' →
      is_descriptor_proto ⟨p ++ c :: f, pkg⟩ = is_descriptor_proto ⟨f, pkg⟩) := by
  constructor
  · intro fd
    simp [is_descriptor_proto, Bool.and_eq_true, beq_iff_eq]
  · intro p f c pkg hc
    simp only [is_descriptor_proto, file_last_component_append p c f hc]

/-- Witness for C7: prefixing `xx/` to `descriptor.proto` does not change
the bootstrap test. -/
theorem is_descriptor_proto_spec_witness :
    is_descriptor_proto
        ⟨"xx".toList ++ '/' :: "descriptor.proto".toList, "google.protobuf".toList⟩ =
      is_descriptor_proto ⟨"descriptor.proto".toList, "google.protobuf".toList⟩ :=
  is_descriptor_proto_spec.2 "xx".toList "descriptor.proto".toList '/'
    "google.protobuf".toList (Or.inl rfl)

example : is_descriptor_proto ⟨"descriptor.proto".toList, "google.protobuf".toList⟩ =
    true := by decide
example : is_descriptor_proto ⟨"descriptor.proto".toList, "google".toList⟩ = false := by
  decide

/-- `RustIdentWithPath`: an identifier plus its module path (modelled
from the spec's QualifiedSymbol; the concrete type lives in the
`rust_name` module, outside this file's source). -/
structure RustIdentWithPath where
  path : RustPath
  ident : String
deriving DecidableEq

/-- `make_path`: resolve `dest`'s path relative to `source` and keep
`dest`'s identifier. -/
def make_path (source : RustPath) (dest : RustIdentWithPath) : Option RustIdentWithPath :=
  (make_path_to_path source dest.path).map (fun p => ⟨p, dest.ident⟩)

/-- Modelled from the spec: the view of a scope/registry entity that
`message_or_enum_to_rust_relative` consumes through the `WithScope`
trait (declaring file, fully-qualified schema name, in-file rust name,
rust name qualified with the file module). -/
structure WithScope where
  file_descriptor : FileDescriptorProto
  name_absolute : String
  rust_name_to_file : RustIdentWithPath
  rust_name_with_file : RustIdentWithPath

/-- `FileAndMod`: the compiling unit's context — current file name and
current relative module path inside it. -/
structure FileAndMod where
  file : List Char
  relative_mod : List String

/-- `message_or_enum_to_rust_relative`: cross-unit naming.  Decision
order follows the source: same compilation unit first, then the
well-known-type table (passed as a function, since the table lives
outside this file's source), then the bootstrap `descriptor.proto` rule,
then the cross-unit relative path (reverse the context's module position,
one extra parent-scope escape, then the target's in-file path). -/
def message_or_enum_to_rust_relative
    (is_well_known_type_full : String → Option String)
    (m : WithScope) (current : FileAndMod) : Option RustIdentWithPath :=
  if m.file_descriptor.name = current.file then
    make_path ⟨false, current.relative_mod⟩ m.rust_name_to_file
  else
    match is_well_known_type_full m.name_absolute with
    | some name => some ⟨⟨true, ["protobuf", "well_known_types"]⟩, name⟩
    | none =>
      if is_descriptor_proto m.file_descriptor then
        some ⟨⟨true, "protobuf" :: "descriptor" :: m.rust_name_to_file.path.components⟩,
              m.rust_name_to_file.ident⟩
      else
        some ⟨RustPath.append
                ⟨false, current.relative_mod.map (fun _ => "..") ++ [".."]⟩
                m.rust_name_with_file.path,
              m.rust_name_with_file.ident⟩

/-- C4: cross-unit naming decides by first match in the fixed order
same-unit, well-known table, bootstrap `descriptor.proto`, cross-unit
relative path; in particular an entity in the same unit resolves via the
path resolver regardless of the well-known table. -/
theorem message_or_enum_precedence
    (wkt : String → Option String) (m : WithScope) (current : FileAndMod) :
    (m.file_descriptor.name = current.file →
      message_or_enum_to_rust_relative wkt m current =
        make_path ⟨false, current.relative_mod⟩ m.rust_name_to_file) ∧
    (m.file_descriptor.name ≠ current.file → ∀ n, wkt m.name_absolute = some n →
      message_or_enum_to_rust_relative wkt m current =
        some ⟨⟨true, ["protobuf", "well_known_types"]⟩, n⟩) ∧
    (m.file_descriptor.name ≠ current.file → wkt m.name_absolute = none →
      is_descriptor_proto m.file_descriptor = true →
      message_or_enum_to_rust_relative wkt m current =
        some ⟨⟨true, "protobuf" :: "descriptor" :: m.rust_name_to_file.path.components⟩,
              m.rust_name_to_file.ident⟩) ∧
    (m.file_descriptor.name ≠ current.file → wkt m.name_absolute = none →
      is_descriptor_proto m.file_descriptor = false →
      message_or_enum_to_rust_relative wkt m current =
        some ⟨RustPath.append
                ⟨false, current.relative_mod.map (fun _ => "..") ++ [".."]⟩
                m.rust_name_with_file.path,
              m.rust_name_with_file.ident⟩) := by
  refine ⟨fun h => ?_, fun h n hn => ?_, fun h hn hd => ?_, fun h hn hd => ?_⟩
  · simp [message_or_enum_to_rust_relative, h]
  · simp [message_or_enum_to_rust_relative, h, hn]
  · simp [message_or_enum_to_rust_relative, h, hn, hd]
  · simp [message_or_enum_to_rust_relative, h, hn, hd]

/-- Witness for C4: a fixture entity declared in the compiling file whose
name is also in the well-known table still resolves via the same-unit
rule. -/
theorem message_or_enum_precedence_witness :
    message_or_enum_to_rust_relative (fun _ => some "Duration")
        ⟨⟨"f.proto".toList, "pkg".toList⟩, ".google.protobuf.Duration",
          ⟨⟨false, []⟩, "M"⟩, ⟨⟨false, ["f"]⟩, "M"⟩⟩
        ⟨"f.proto".toList, []⟩ =
      make_path ⟨false, []⟩ ⟨⟨false, []⟩, "M"⟩ :=
  (message_or_enum_precedence (fun _ => some "Duration")
      ⟨⟨"f.proto".toList, "pkg".toList⟩, ".google.protobuf.Duration",
        ⟨⟨false, []⟩, "M"⟩, ⟨⟨false, ["f"]⟩, "M"⟩⟩
      ⟨"f.proto".toList, []⟩).1 rfl

example : message_or_enum_to_rust_relative (fun _ => some "Duration")
      ⟨⟨"f.proto".toList, "pkg".toList⟩, ".google.protobuf.Duration",
        ⟨⟨false, []⟩, "M"⟩, ⟨⟨false, ["f"]⟩, "M"⟩⟩
      ⟨"f.proto".toList, []⟩ = some ⟨⟨false, []⟩, "M"⟩ := by decide
